import Mathlib

/-!
Verification development for the HTTP client core of the grant-generator
application (file `src/app.py`): the `OllamaAPI` class with its retry-configured
session, its `_make_request` transport operation, and its
`generate_with_backup` primary/backup generation strategy.

The embedding is shallow: Python runtime values returned by `response.json()`
become the inductive type `PyVal`; Python exceptions raised and caught by the
code become the inductive type `PyExn`; the HTTP layer (the `requests` session)
is abstracted as a transport oracle mapping the concrete HTTP request the code
builds to one of the three outcomes the code distinguishes (a 2xx response
with a parsed JSON body, a timeout, or a request failure with a cause
description).  Functions return, besides their result, the list of HTTP
requests they perform, so that claims about which requests are sent are
statable.
-/

/-- A Python value as produced by `response.json()`: strings, numbers,
booleans, `None`, lists and string-keyed dicts. -/
inductive PyVal where
  | str (s : String)
  | num (q : ℚ)
  | bool (b : Bool)
  | nil
  | arr (xs : List PyVal)
  | obj (fields : List (String × PyVal))
  deriving Repr, Inhabited

/-- The Python exceptions the code raises or lets propagate inside
`generate_with_backup`: `TimeoutError` and the two explicit `Exception`s of
`app.py`, plus the built-in exceptions the text-extraction expression can
raise (`IndexError`, `KeyError`, `AttributeError`, `TypeError`) and the
`NameError` of an unbound local. -/
inductive PyExn where
  | timeoutError (msg : String)
  | exn (msg : String)
  | indexError (msg : String)
  | keyError (msg : String)
  | attributeError (msg : String)
  | typeError (msg : String)
  | nameError (msg : String)
  deriving Repr, DecidableEq

/-- Python `str(e)` on an exception: the message it was constructed with. -/
def PyExn.str : PyExn → String
  | .timeoutError msg => msg
  | .exn msg => msg
  | .indexError msg => msg
  | .keyError msg => msg
  | .attributeError msg => msg
  | .typeError msg => msg
  | .nameError msg => msg

/-- A chat message: a role tag paired with text content (the dicts built by
the callers of `generate_with_backup`). -/
structure Message where
  role : String
  content : String
  deriving Repr, DecidableEq, Inhabited

/-- A generation payload, exactly the dict literals of
`OllamaAPI.generate_with_backup` (src/app.py lines 53-69). -/
structure Payload where
  model : String
  messages : List Message
  temperature : ℚ
  max_tokens : ℕ
  stream : Bool
  deriving Repr, DecidableEq, Inhabited

/-- The retry policy object built in `OllamaAPI._create_session`
(src/app.py lines 26-30): `Retry(total=3, backoff_factor=1,
status_forcelist=[429, 500, 502, 503, 504])`. -/
structure Retry where
  total : ℕ
  backoff_factor : ℚ
  status_forcelist : List ℕ
  deriving Repr, DecidableEq

/-- The session built by `_create_session`: adapters carrying the retry
policy mounted on both URL schemes, and basic-auth credentials. -/
structure Session where
  adapters : List (String × Retry)
  auth : Option (String × String)
  deriving Repr, DecidableEq

/-- The configuration of an `OllamaAPI` instance (src/app.py lines 16-21). -/
structure OllamaAPI where
  base_url : String
  username : String
  password : String
  timeout : ℕ
  deriving Repr, DecidableEq

/-- The `retry_strategy` local of `_create_session` (src/app.py lines 26-30). -/
def retry_strategy : Retry :=
  { total := 3
    backoff_factor := 1
    status_forcelist := [429, 500, 502, 503, 504] }

/-- `OllamaAPI._create_session` (src/app.py lines 23-35): a session whose
http and https adapters carry `retry_strategy` and whose auth is the
configured username/password pair. -/
def _create_session (username password : String) : Session :=
  { adapters := [("http://", retry_strategy), ("https://", retry_strategy)]
    auth := some (username, password) }

/-- The session owned by a client instance (`self.session`,
src/app.py line 21). -/
def OllamaAPI.session (c : OllamaAPI) : Session :=
  _create_session c.username c.password

/-- Whether the retry policy retries on an HTTP status code: the code is in
its `status_forcelist`. -/
def Retry.retriesOnStatus (r : Retry) (code : ℕ) : Prop :=
  code ∈ r.status_forcelist

instance (r : Retry) (code : ℕ) : Decidable (r.retriesOnStatus code) := by
  unfold Retry.retriesOnStatus
  infer_instance

/-- One HTTP request as issued by `self.session.post(...)` in
`_make_request` (src/app.py lines 41-43). -/
structure HttpRequest where
  method : String
  url : String
  headers : List (String × String)
  body : Payload
  auth : Option (String × String)
  timeout : ℕ
  deriving Repr, DecidableEq

/-- The three outcomes of the HTTP layer that `_make_request`
distinguishes: a 2xx response whose body parsed as JSON, a
`requests.exceptions.Timeout`, or any other
`requests.exceptions.RequestException` (non-2xx status after the retry
policy, connection faults, unparsable bodies) with its cause description. -/
inductive HttpResult where
  | success (body : PyVal)
  | timeout
  | failure (cause : String)
  deriving Repr

/-- The transport oracle: what the network does with one concrete request. -/
def Transport : Type := HttpRequest → HttpResult

/-- The request `_make_request` builds for a payload: one POST of the
JSON payload to `{base_url}/v1/chat/completions` with the
`Content-Type: application/json` header, the session auth and the
configured timeout (src/app.py lines 39-43). -/
def mkRequest (c : OllamaAPI) (p : Payload) : HttpRequest :=
  { method := "POST"
    url := c.base_url ++ "/v1/chat/completions"
    headers := [("Content-Type", "application/json")]
    body := p
    auth := c.session.auth
    timeout := c.timeout }

/-- `OllamaAPI._make_request` (src/app.py lines 37-49): performs the single
POST and maps the outcome: success returns the parsed body; a timeout
raises `TimeoutError("Request timed out")`; any other request exception is
re-raised as `Exception("API request failed: " + str(e))`.  Returns the list
of requests performed together with the result. -/
def _make_request (c : OllamaAPI) (t : Transport) (p : Payload) :
    List HttpRequest × Except PyExn PyVal :=
  match t (mkRequest c p) with
  | .success body => ([mkRequest c p], .ok body)
  | .timeout => ([mkRequest c p], .error (.timeoutError "Request timed out"))
  | .failure cause => ([mkRequest c p], .error (.exn ("API request failed: " ++ cause)))

/-- Python `d.get(key, dflt)`: on a dict, lookup with default; on any other
value, `AttributeError`. -/
def PyVal.get : PyVal → String → PyVal → Except PyExn PyVal
  | .obj fields, key, dflt => .ok ((fields.lookup key).getD dflt)
  | _, _, _ => .error (.attributeError "object has no attribute get")

/-- Python `x[0]`: first element of a non-empty list; `IndexError` on an
empty list or empty string; first character of a non-empty string;
`KeyError` on a string-keyed dict (no key `0`); `TypeError` otherwise. -/
def PyVal.item0 : PyVal → Except PyExn PyVal
  | .arr [] => .error (.indexError "list index out of range")
  | .arr (x :: _) => .ok x
  | .str s =>
    match s.data with
    | [] => .error (.indexError "string index out of range")
    | ch :: _ => .ok (.str (String.mk [ch]))
  | .obj _ => .error (.keyError "0")
  | _ => .error (.typeError "object is not subscriptable")

/-- The text-extraction expression of `generate_with_backup`
(src/app.py line 73):
`response.get("choices", [{}])[0].get("message", {}).get("content", "")`. -/
def extractContent (response : PyVal) : Except PyExn PyVal :=
  match response.get "choices" (.arr [.obj []]) with
  | .error e => .error e
  | .ok choices =>
    match choices.item0 with
    | .error e => .error e
    | .ok first =>
      match first.get "message" (.obj []) with
      | .error e => .error e
      | .ok message => message.get "content" (.str "")

/-- One iteration of the loop body of `generate_with_backup`
(src/app.py lines 71-74): perform the request, extract the content, return
`(content, response)`; any exception from either step escapes to the
`except` clause. -/
def attempt (c : OllamaAPI) (t : Transport) (p : Payload) :
    List HttpRequest × Except PyExn (PyVal × PyVal) :=
  match _make_request c t p with
  | (reqs, .error e) => (reqs, .error e)
  | (reqs, .ok response) =>
    match extractContent response with
    | .error e => (reqs, .error e)
    | .ok content => (reqs, .ok (content, response))

/-- The primary payload of `generate_with_backup`
(src/app.py lines 54-60). -/
def primaryPayload (messages : List Message) (temperature : ℚ) : Payload :=
  { model := "llama3.2"
    messages := messages
    temperature := temperature
    max_tokens := 2000
    stream := false }

/-- The backup payload of `generate_with_backup`
(src/app.py lines 62-68). -/
def backupPayload (messages : List Message) : Payload :=
  { model := "llama3.2"
    messages := messages
    temperature := 0.5
    max_tokens := 1000
    stream := false }

/-- The `payloads` list of `generate_with_backup`
(src/app.py lines 53-69). -/
def payloads (messages : List Message) (temperature : ℚ) : List Payload :=
  [primaryPayload messages temperature, backupPayload messages]

/-- The `for payload in payloads` loop of `generate_with_backup`
(src/app.py lines 70-78): try each payload; on success return immediately;
on any exception record `last_error = str(e)` and continue; when the list is
exhausted raise `Exception` embedding the last error (`NameError` if no
iteration ever ran, which cannot happen for the fixed two-element list). -/
def tryPayloads (c : OllamaAPI) (t : Transport) :
    List Payload → Option String → List HttpRequest × Except PyExn (PyVal × PyVal)
  | [], last_error =>
    ([], .error (match last_error with
      | some msg => .exn ("All generation attempts failed. Last error: " ++ msg)
      | none => .nameError "name last_error is not defined"))
  | p :: rest, _ =>
    match attempt c t p with
    | (reqs, .ok r) => (reqs, .ok r)
    | (reqs, .error e) =>
      match tryPayloads c t rest (some (PyExn.str e)) with
      | (reqs2, res) => (reqs ++ reqs2, res)

/-- `OllamaAPI.generate_with_backup` (src/app.py lines 51-78): build the
primary and backup payloads and run the fallback loop.  Returns the list of
HTTP requests performed and either `(content, response)` or the exception
that escapes. -/
def generate_with_backup (c : OllamaAPI) (t : Transport)
    (messages : List Message) (temperature : ℚ) :
    List HttpRequest × Except PyExn (PyVal × PyVal) :=
  tryPayloads c t (payloads messages temperature) none

/-- The `str(e)` of the exception `_make_request` raises on a failed HTTP
outcome (the success case is unused, the outcome raises nothing there). -/
def requestFailureStr : HttpResult → String
  | .success _ => ""
  | .timeout => "Request timed out"
  | .failure cause => "API request failed: " ++ cause

/-! ## Helper lemmas shared by the claim theorems -/

/-- An attempt performs exactly the one request `_make_request` builds. -/
lemma attempt_fst (c : OllamaAPI) (t : Transport) (p : Payload) :
    (attempt c t p).1 = [mkRequest c p] := by
  rcases h : t (mkRequest c p) with body | _ | cause <;>
    simp only [attempt, _make_request, h]
  rcases h2 : extractContent body with e | content <;> simp [h2]

/-- The result of an attempt, by cases on the transport outcome. -/
lemma attempt_snd (c : OllamaAPI) (t : Transport) (p : Payload) :
    (attempt c t p).2 =
      match t (mkRequest c p) with
      | .success body =>
        match extractContent body with
        | .ok content => .ok (content, body)
        | .error e => .error e
      | .timeout => .error (.timeoutError "Request timed out")
      | .failure cause => .error (.exn ("API request failed: " ++ cause)) := by
  rcases h : t (mkRequest c p) with body | _ | cause <;>
    simp only [attempt, _make_request, h]
  rcases h2 : extractContent body with e | content <;> simp [h2]

/-- Full unfolding of `generate_with_backup`: try the primary attempt, then
the backup attempt, then fail embedding the last error. -/
lemma generate_eq (c : OllamaAPI) (t : Transport) (m : List Message) (temp : ℚ) :
    generate_with_backup c t m temp =
      match (attempt c t (primaryPayload m temp)).2 with
      | .ok r => ([mkRequest c (primaryPayload m temp)], .ok r)
      | .error _ =>
        match (attempt c t (backupPayload m)).2 with
        | .ok r =>
          ([mkRequest c (primaryPayload m temp), mkRequest c (backupPayload m)], .ok r)
        | .error e2 =>
          ([mkRequest c (primaryPayload m temp), mkRequest c (backupPayload m)],
            .error (.exn ("All generation attempts failed. Last error: " ++ PyExn.str e2))) := by
  have hf1 := attempt_fst c t (primaryPayload m temp)
  have hf2 := attempt_fst c t (backupPayload m)
  simp only [generate_with_backup, payloads, tryPayloads]
  rcases h1 : attempt c t (primaryPayload m temp) with ⟨reqs1, res1⟩
  rw [h1] at hf1
  rcases h2 : attempt c t (backupPayload m) with ⟨reqs2, res2⟩
  rw [h2] at hf2
  simp only at hf1 hf2
  subst hf1
  subst hf2
  cases res1 <;> cases res2 <;> simp

/-! ## Concrete fixtures used by witnesses and counterexamples -/

/-- A concrete client configuration. -/
def demoAPI : OllamaAPI :=
  { base_url := "http://h", username := "u", password := "p", timeout := 90 }

/-- A concrete conversation. -/
def demoMessages : List Message :=
  [{ role := "system", content := "You are an expert grant writer." },
   { role := "user", content := "Create a grant section." }]

/-- A transport on which every request times out. -/
def tTimeout : Transport := fun _ => .timeout

/-- A well-formed success body with one choice carrying text content. -/
def goodBody : PyVal :=
  .obj [("choices", .arr [.obj [("message", .obj [("content", .str "Hello")])]])]

/-- A transport on which every request succeeds with `goodBody`. -/
def tGood : Transport := fun _ => .success goodBody

/-- A transport failing the primary payload (recognised by its
`max_tokens = 2000`) and succeeding with `goodBody` on the backup. -/
def tFailThenGood : Transport := fun req =>
  if req.body.max_tokens = 2000 then .failure "boom" else .success goodBody

/-- A success body whose `choices` key holds an empty list. -/
def emptyChoicesBody : PyVal := .obj [("choices", .arr [])]

/-- A transport on which every request succeeds with `emptyChoicesBody`. -/
def tEmptyChoices : Transport := fun _ => .success emptyChoicesBody

/-- A transport on which every request succeeds with a body that has no
`choices` key at all. -/
def tNoChoices : Transport := fun _ => .success (.obj [])

/-! ## Claim theorems -/

/-- Claim C2: in every call to `generate_with_backup`, the constructed
variant list has the primary payload carrying the caller-supplied
temperature with `max_tokens = 2000`, and the backup payload carrying
`temperature = 0.5` with `max_tokens = 1000`, regardless of caller input
(`generate_with_backup` is by definition the fallback loop over exactly
this list). -/
theorem generate_payload_settings (m : List Message) (temperature : ℚ) :
    (payloads m temperature).map Payload.temperature = [temperature, 0.5] ∧
    (payloads m temperature).map Payload.max_tokens = [2000, 1000] ∧
    ∀ c t, generate_with_backup c t m temperature =
      tryPayloads c t (payloads m temperature) none :=
  ⟨rfl, rfl, fun _ _ => rfl⟩

/-- Claim C9: both payload variants carry the caller's message list
unchanged and in order, and they agree on every field other than
temperature and max_tokens (model and stream are identical). -/
theorem generate_payload_messages_preserved (m : List Message) (temperature : ℚ) :
    (payloads m temperature).map Payload.messages = [m, m] ∧
    (primaryPayload m temperature).model = (backupPayload m).model ∧
    (primaryPayload m temperature).stream = (backupPayload m).stream :=
  ⟨rfl, rfl, rfl⟩

/-- Claim C8: `_make_request` performs exactly one request, and that request
is a POST of the payload to `{base_url}/v1/chat/completions` with the
`Content-Type: application/json` header, basic-auth credentials equal to the
client's configured username and password, and the client's configured
timeout. -/
theorem make_request_single_post (c : OllamaAPI) (t : Transport) (p : Payload) :
    (_make_request c t p).1 = [mkRequest c p] ∧
    mkRequest c p =
      { method := "POST"
        url := c.base_url ++ "/v1/chat/completions"
        headers := [("Content-Type", "application/json")]
        body := p
        auth := some (c.username, c.password)
        timeout := c.timeout } := by
  constructor
  · rcases h : t (mkRequest c p) <;> simp [_make_request, h]
  · rfl

/-- Claim C4: for every payload, `_make_request` either returns the parsed
JSON body of a successful response, or fails with the Timeout error, or
fails with the RequestFailed error carrying the underlying cause
description; by cases on the transport outcome, no other result is
possible. -/
theorem make_request_outcomes (c : OllamaAPI) (t : Transport) (p : Payload) :
    (∃ body, t (mkRequest c p) = .success body ∧
      (_make_request c t p).2 = .ok body) ∨
    (t (mkRequest c p) = .timeout ∧
      (_make_request c t p).2 = .error (.timeoutError "Request timed out")) ∨
    (∃ cause, t (mkRequest c p) = .failure cause ∧
      (_make_request c t p).2 = .error (.exn ("API request failed: " ++ cause))) := by
  rcases h : t (mkRequest c p) with body | _ | cause
  · exact Or.inl ⟨body, rfl, by simp [_make_request, h]⟩
  · exact Or.inr (Or.inl ⟨rfl, by simp [_make_request, h]⟩)
  · exact Or.inr (Or.inr ⟨cause, rfl, by simp [_make_request, h]⟩)

/-- Claim C7: `_create_session` mounts on both URL schemes an adapter whose
retry policy allows at most 3 retries with exponential backoff factor 1 and
retries on exactly the status codes 429, 500, 502, 503 and 504; every other
4xx status code is not retried on. -/
theorem session_retry_configuration (username password : String) :
    (∀ pr ∈ (_create_session username password).adapters,
      pr.2.total = 3 ∧ pr.2.backoff_factor = 1 ∧
      pr.2.status_forcelist = [429, 500, 502, 503, 504]) ∧
    (∀ code, 400 ≤ code → code < 500 → code ≠ 429 →
      ¬ retry_strategy.retriesOnStatus code) := by
  constructor
  · intro pr hpr
    simp only [_create_session, List.mem_cons, List.mem_singleton,
      List.not_mem_nil, or_false] at hpr
    rcases hpr with h | h <;> subst h <;> exact ⟨rfl, rfl, rfl⟩
  · intro code h1 h2 h3 hmem
    simp only [Retry.retriesOnStatus, retry_strategy, List.mem_cons,
      List.not_mem_nil, or_false] at hmem
    omega

/-- Witness for `session_retry_configuration`: the concrete session of the
demo credentials, checked on its first adapter and on status code 404. -/
theorem session_retry_configuration_witness :
    ("http://", retry_strategy) ∈ (_create_session "u" "p").adapters ∧
    retry_strategy.total = 3 ∧
    ¬ retry_strategy.retriesOnStatus 404 := by
  refine ⟨by simp [_create_session], ?_, ?_⟩
  · exact (((session_retry_configuration "u" "p").1 ("http://", retry_strategy)
      (by simp [_create_session]))).1
  · exact (session_retry_configuration "u" "p").2 404 (by decide) (by decide) (by decide)

/-- Claim C5: a successful response body that is a dict without the
`choices` key, or whose first choice is a dict without the `message` key,
or whose `message` value is a dict without the `content` key, extracts to
the empty string, and the generation call succeeds with that empty string
rather than failing. -/
theorem extraction_missing_fields (fields : List (String × PyVal))
    (h : fields.lookup "choices" = none ∨
      (∃ cf rest, fields.lookup "choices" = some (.arr (.obj cf :: rest)) ∧
        cf.lookup "message" = none) ∨
      (∃ cf rest mf, fields.lookup "choices" = some (.arr (.obj cf :: rest)) ∧
        cf.lookup "message" = some (.obj mf) ∧ mf.lookup "content" = none)) :
    extractContent (.obj fields) = .ok (.str "") ∧
    ∀ c t m temp, t (mkRequest c (primaryPayload m temp)) = .success (.obj fields) →
      generate_with_backup c t m temp =
        ([mkRequest c (primaryPayload m temp)], .ok (.str "", .obj fields)) := by
  have hex : extractContent (.obj fields) = .ok (.str "") := by
    rcases h with h1 | ⟨cf, rest, h1, h2⟩ | ⟨cf, rest, mf, h1, h2, h3⟩
    · simp [extractContent, PyVal.get, PyVal.item0, h1]
    · simp [extractContent, PyVal.get, PyVal.item0, h1, h2]
    · simp [extractContent, PyVal.get, PyVal.item0, h1, h2, h3]
  refine ⟨hex, ?_⟩
  intro c t m temp ht
  have ha := attempt_snd c t (primaryPayload m temp)
  simp only [ht, hex] at ha
  rw [generate_eq c t m temp]
  simp [ha]

/-- Witness for `extraction_missing_fields`: the empty dict body on the
transport `tNoChoices` yields the empty string and a successful call. -/
theorem extraction_missing_fields_witness :
    extractContent (.obj []) = .ok (.str "") ∧
    generate_with_backup demoAPI tNoChoices demoMessages (7/10) =
      ([mkRequest demoAPI (primaryPayload demoMessages (7/10))],
        .ok (.str "", .obj [])) := by
  have h := extraction_missing_fields [] (Or.inl rfl)
  exact ⟨h.1, h.2 demoAPI tNoChoices demoMessages (7/10) rfl⟩

/-- Claim C10: a successful body whose `choices` key holds an empty list
makes the extraction expression raise `IndexError` (rather than yield an
empty string), so the variant is treated as failed: when the primary
request returns such a body, the backup request is still sent, and when no
later variant rescues the call it ends in the AllAttemptsFailed error. -/
theorem extraction_empty_choices_raises (fields : List (String × PyVal))
    (h : fields.lookup "choices" = some (.arr [])) :
    extractContent (.obj fields) = .error (.indexError "list index out of range") ∧
    ∀ c t m temp, t (mkRequest c (primaryPayload m temp)) = .success (.obj fields) →
      (generate_with_backup c t m temp).1 =
        [mkRequest c (primaryPayload m temp), mkRequest c (backupPayload m)] := by
  have hex : extractContent (.obj fields) =
      .error (.indexError "list index out of range") := by
    simp [extractContent, PyVal.get, PyVal.item0, h]
  refine ⟨hex, ?_⟩
  intro c t m temp ht
  have ha := attempt_snd c t (primaryPayload m temp)
  simp only [ht, hex] at ha
  rw [generate_eq c t m temp]
  rcases hb : (attempt c t (backupPayload m)).2 with e | r <;> simp [ha, hb]

/-- Witness for `extraction_empty_choices_raises`: the concrete body with
`choices = []` on the transport that always returns it; both requests are
sent and the call fails with the AllAttemptsFailed message embedding the
IndexError description. -/
theorem extraction_empty_choices_raises_witness :
    List.lookup "choices" [("choices", PyVal.arr [])] = some (PyVal.arr []) ∧
    extractContent emptyChoicesBody = .error (.indexError "list index out of range") ∧
    (generate_with_backup demoAPI tEmptyChoices demoMessages (7/10)).1 =
      [mkRequest demoAPI (primaryPayload demoMessages (7/10)),
       mkRequest demoAPI (backupPayload demoMessages)] ∧
    (generate_with_backup demoAPI tEmptyChoices demoMessages (7/10)).2 =
      .error (.exn "All generation attempts failed. Last error: list index out of range") := by
  have h := extraction_empty_choices_raises [("choices", PyVal.arr [])] rfl
  exact ⟨rfl, h.1, h.2 demoAPI tEmptyChoices demoMessages (7/10) rfl, rfl⟩

/-- Claim C3: when the transport yields no successful response on either
variant's request, `generate_with_backup` fails with the AllAttemptsFailed
error whose message is exactly the fixed prefix followed by the failure
description of the last (backup) request alone; the primary failure
description does not occur in it. -/
theorem generate_all_failed_last_error (c : OllamaAPI) (t : Transport)
    (m : List Message) (temp : ℚ)
    (h1 : ∀ body, t (mkRequest c (primaryPayload m temp)) ≠ .success body)
    (h2 : ∀ body, t (mkRequest c (backupPayload m)) ≠ .success body) :
    (generate_with_backup c t m temp).2 =
      .error (.exn ("All generation attempts failed. Last error: " ++
        requestFailureStr (t (mkRequest c (backupPayload m))))) := by
  have ha1 := attempt_snd c t (primaryPayload m temp)
  have ha2 := attempt_snd c t (backupPayload m)
  rw [generate_eq c t m temp]
  rcases ht1 : t (mkRequest c (primaryPayload m temp)) with b | _ | cause1
  · exact absurd ht1 (h1 b)
  all_goals rcases ht2 : t (mkRequest c (backupPayload m)) with b | _ | cause2
  · exact absurd ht2 (h2 b)
  all_goals simp only [ht1, ht2] at ha1 ha2
  · simp [ha1, ha2, requestFailureStr, ht2, PyExn.str]
  · simp [ha1, ha2, requestFailureStr, ht2, PyExn.str]
  · exact absurd ht2 (h2 b)
  · simp [ha1, ha2, requestFailureStr, ht2, PyExn.str]
  · simp [ha1, ha2, requestFailureStr, ht2, PyExn.str]

/-- Witness for `generate_all_failed_last_error`: on the all-timeout
transport the call fails with the AllAttemptsFailed message embedding the
backup timeout description. -/
theorem generate_all_failed_last_error_witness :
    (generate_with_backup demoAPI tTimeout demoMessages (7/10)).2 =
      .error (.exn "All generation attempts failed. Last error: Request timed out") := by
  have h := generate_all_failed_last_error demoAPI tTimeout demoMessages (7/10)
    (fun body hb => HttpResult.noConfusion hb)
    (fun body hb => HttpResult.noConfusion hb)
  simpa [tTimeout, requestFailureStr] using h

/-- Claim C6: a Timeout raised inside a variant is caught like any other
failure: the result of `generate_with_backup` is never the Timeout error
itself; a timeout on the primary request leads to the backup request being
sent; and a timeout on both requests ends in the AllAttemptsFailed error
embedding the timeout description. -/
theorem generate_timeout_caught (c : OllamaAPI) (t : Transport)
    (m : List Message) (temp : ℚ) :
    (∀ s, (generate_with_backup c t m temp).2 ≠ .error (.timeoutError s)) ∧
    (t (mkRequest c (primaryPayload m temp)) = .timeout →
      (generate_with_backup c t m temp).1 =
        [mkRequest c (primaryPayload m temp), mkRequest c (backupPayload m)]) ∧
    (t (mkRequest c (primaryPayload m temp)) = .timeout →
      t (mkRequest c (backupPayload m)) = .timeout →
      (generate_with_backup c t m temp).2 =
        .error (.exn "All generation attempts failed. Last error: Request timed out")) := by
  have ha1 := attempt_snd c t (primaryPayload m temp)
  have ha2 := attempt_snd c t (backupPayload m)
  refine ⟨?_, ?_, ?_⟩
  · intro s
    rw [generate_eq c t m temp]
    rcases hr1 : (attempt c t (primaryPayload m temp)).2 with e1 | r1 <;>
      rcases hr2 : (attempt c t (backupPayload m)).2 with e2 | r2 <;> simp
  · intro hp
    simp only [hp] at ha1
    rw [generate_eq c t m temp]
    simp only [ha1]
    rcases hr2 : (attempt c t (backupPayload m)).2 with e2 | r2 <;> simp
  · intro hp hb
    simp only [hp] at ha1
    simp only [hb] at ha2
    rw [generate_eq c t m temp]
    simp [ha1, ha2, PyExn.str]

/-- Witness for `generate_timeout_caught`: the all-timeout transport; both
requests are sent, the result is the AllAttemptsFailed error and not the
Timeout error. -/
theorem generate_timeout_caught_witness :
    (generate_with_backup demoAPI tTimeout demoMessages (7/10)).1 =
      [mkRequest demoAPI (primaryPayload demoMessages (7/10)),
       mkRequest demoAPI (backupPayload demoMessages)] ∧
    (generate_with_backup demoAPI tTimeout demoMessages (7/10)).2 =
      .error (.exn "All generation attempts failed. Last error: Request timed out") ∧
    (generate_with_backup demoAPI tTimeout demoMessages (7/10)).2 ≠
      .error (.timeoutError "Request timed out") := by
  have h := generate_timeout_caught demoAPI tTimeout demoMessages (7/10)
  exact ⟨h.2.1 rfl, h.2.2 rfl rfl, h.1 "Request timed out"⟩

/-- Claim C1, counterexample to the claim as stated: on the transport
`tEmptyChoices` the primary request succeeds (a 2xx response with body
`emptyChoicesBody`), yet `generate_with_backup` does not return that
response's text: it sends the backup request as well (two requests, not
one) and the call fails, because the extraction expression raises on the
present-but-empty `choices` list. -/
theorem generate_primary_success_shortcircuit_cex :
    tEmptyChoices (mkRequest demoAPI (primaryPayload demoMessages (7/10))) =
      HttpResult.success emptyChoicesBody ∧
    (generate_with_backup demoAPI tEmptyChoices demoMessages (7/10)).1.length = 2 ∧
    (generate_with_backup demoAPI tEmptyChoices demoMessages (7/10)).2 =
      .error (.exn "All generation attempts failed. Last error: list index out of range") :=
  ⟨rfl, rfl, rfl⟩

/-- Claim C1 (amended): the non-empty variant list is tried strictly in
order; if the primary request succeeds and text extraction from its body
succeeds, the call returns that extracted text paired with the raw response
immediately and the backup request is never sent; if the primary attempt
fails (request or extraction) and the backup request succeeds with
successful extraction, the returned text comes from the backup response and
exactly the two requests are made, in order. -/
theorem generate_fallback_order (c : OllamaAPI) (t : Transport)
    (m : List Message) (temp : ℚ) :
    (∀ body content, t (mkRequest c (primaryPayload m temp)) = .success body →
      extractContent body = .ok content →
      generate_with_backup c t m temp =
        ([mkRequest c (primaryPayload m temp)], .ok (content, body))) ∧
    (∀ e body content, (attempt c t (primaryPayload m temp)).2 = .error e →
      t (mkRequest c (backupPayload m)) = .success body →
      extractContent body = .ok content →
      generate_with_backup c t m temp =
        ([mkRequest c (primaryPayload m temp), mkRequest c (backupPayload m)],
          .ok (content, body))) := by
  constructor
  · intro body content ht hx
    have ha := attempt_snd c t (primaryPayload m temp)
    simp only [ht, hx] at ha
    rw [generate_eq c t m temp]
    simp [ha]
  · intro e body content he ht hx
    have ha := attempt_snd c t (backupPayload m)
    simp only [ht, hx] at ha
    rw [generate_eq c t m temp]
    simp [he, ha]

/-- Witness for `generate_fallback_order`: on `tGood` the primary succeeds
and only one request is sent; on `tFailThenGood` the primary fails, the
backup succeeds, and exactly the two requests are sent in order. -/
theorem generate_fallback_order_witness :
    generate_with_backup demoAPI tGood demoMessages (7/10) =
      ([mkRequest demoAPI (primaryPayload demoMessages (7/10))],
        .ok (.str "Hello", goodBody)) ∧
    generate_with_backup demoAPI tFailThenGood demoMessages (7/10) =
      ([mkRequest demoAPI (primaryPayload demoMessages (7/10)),
        mkRequest demoAPI (backupPayload demoMessages)],
        .ok (.str "Hello", goodBody)) := by
  constructor
  · exact (generate_fallback_order demoAPI tGood demoMessages (7/10)).1
      goodBody (.str "Hello") rfl rfl
  · exact (generate_fallback_order demoAPI tFailThenGood demoMessages (7/10)).2
      (.exn "API request failed: boom") goodBody (.str "Hello") rfl rfl rfl
